import Mathlib

/-!
Shallow embedding of the toil-lib repository (glennhickey/toil-lib):
`src/toil_lib/programs.py` and `src/toil_lib/tools/spark_tools.py`.

The Python functions are translated into executable Lean definitions.
External effects (spawning processes, downloading files, the host file
system, environment variables) are made explicit: a `World` value carries
the environment variable controlling mock mode, the file system as an
association list from path to content, and oracles stating whether the
spawned container process and the ownership-repair process exit zero.
A call produces a `CallResult`: the list of external-process and download
events it issued, the resulting file system, and a Python-style outcome
(`Except PyErr Unit`, where an `Except.error` models a raised exception).
-/

namespace ToilLib

/-- Python exception outcomes relevant to this library. `userError` models
`toil_lib.require` raising `UserError(message)`; `assertionError` models a
failed `assert`; `valueError` models `int()` failing to parse;
`calledProcessError` models `subprocess` raising on nonzero exit, tagged
with the command that failed so the original failure is distinguishable
from a repair-step failure. -/
inductive PyErr where
  | userError (msg : String)
  | assertionError
  | valueError
  | calledProcessError (cmd : List String)
  deriving Repr, DecidableEq

/-- `toil_lib.require(expression, message)`: raise `UserError(message)`
when the expression is false (modelled as `Except.error`). -/
def require (cond : Bool) (msg : String) : Except PyErr Unit :=
  if cond then Except.ok () else Except.error (PyErr.userError msg)

/-- Strip leading and trailing whitespace, as Python `int()` does before
parsing its argument. -/
def stripChars (cs : List Char) : List Char :=
  ((cs.dropWhile Char.isWhitespace).reverse.dropWhile Char.isWhitespace).reverse

/-- Accumulate a decimal digit list into a natural number. -/
def digitsToNat (cs : List Char) : Nat :=
  cs.foldl (fun a c => a * 10 + (c.toNat - 48)) 0

/-- Python `int(s)` for base 10: optional surrounding whitespace, an
optional single sign, then one or more decimal digits; anything else
raises `ValueError` (modelled as `none`). -/
def pyInt (s : String) : Option Int :=
  let t := stripChars s.data
  let signed : Bool × List Char :=
    match t with
    | '-' :: rest => (true, rest)
    | '+' :: rest => (false, rest)
    | _ => (false, t)
  let neg := signed.1
  let ds := signed.2
  if !ds.isEmpty && ds.all (fun c => '0' ≤ c && c ≤ '9') then
    some (if neg then -(digitsToNat ds : Int) else (digitsToNat ds : Int))
  else none

/-- `programs.mock_mode()`: read `TOIL_SCRIPTS_MOCK_MODE` (the argument is
the value of that environment variable, `none` when absent, defaulted to
`"0"`), parse it with `int()`, and report whether it is nonzero. A value
that does not parse raises `ValueError`. -/
def mock_mode (envVal : Option String) : Except PyErr Bool :=
  match pyInt (envVal.getD "0") with
  | none => Except.error PyErr.valueError
  | some n => Except.ok (n != 0)

/-- Python truthiness of an optional string: `None` and `""` are falsy. -/
def truthyStr : Option String → Bool
  | none => false
  | some s => !s.isEmpty

/-- Python truthiness of an optional list: `None` and `[]` are falsy. -/
def truthyList : Option (List String) → Bool
  | none => false
  | some l => !l.isEmpty

/-- Character-list test that the first list starts the second. -/
def listIsPre : List Char → List Char → Bool
  | [], _ => true
  | _ :: _, [] => false
  | a :: as, b :: bs => a == b && listIsPre as bs

/-- `os.path.isabs`. -/
def osPathIsAbs (p : String) : Bool :=
  listIsPre "/".data p.data

/-- `os.path.join` for the two-argument form used in the source. -/
def osPathJoin (a b : String) : String :=
  if osPathIsAbs b then b
  else if a.data.isEmpty || listIsPre "/".data a.data.reverse then a ++ b
  else a ++ "/" ++ b

/-- `os.path.abspath` relative to the current working directory. -/
def osPathAbspath (cwd p : String) : String :=
  if osPathIsAbs p then p else osPathJoin cwd p

/-- The host file system as an association list from path to content. -/
abbrev FileSys := List (String × String)

/-- `os.path.exists` / `os.path.isfile` (every modelled entry is a file). -/
def fsExists (fs : FileSys) (p : String) : Bool :=
  fs.any (fun e => e.1 == p)

/-- The ambient state of one invocation: the mock-mode environment
variable, the current working directory, the file system, whether the
spawned container process exits zero (`runOk`), whether the
ownership-repair process exits zero (`fixOk`), and the uid and gid owning
the working directory (`os.stat`). -/
structure World where
  mockEnvVar : Option String
  cwd : String
  fs : FileSys
  runOk : Bool
  fixOk : Bool
  workDirUid : Nat
  workDirGid : Nat
  deriving Repr, DecidableEq

/-- The keyword arguments of `programs.docker_call`, with the defaults of
the Python signature. -/
structure DockerCallArgs where
  tool : Option String := none
  tools : Option String := none
  parameters : Option (List String) := none
  work_dir : String := "."
  rm : Bool := true
  env : List (String × String) := []
  outfile : Bool := false
  errfile : Bool := false
  inputs : Option (List String) := none
  outputs : Option (List (String × Option String)) := none
  docker_parameters : Option (List String) := none
  check_output : Bool := false
  return_stderr : Bool := false
  mock : Option Bool := none
  deriving Repr, DecidableEq

/-- Observable external actions of one invocation. -/
inductive Event where
  | runContainer (shellCmd : String)
  | fixPermissions (cmd : List String)
  | download (url : String) (name : String)
  deriving Repr, DecidableEq

/-- Number of ownership-repair process spawns in an event trace. -/
def countFix : List Event → Nat
  | [] => 0
  | Event.fixPermissions _ :: es => countFix es + 1
  | _ :: es => countFix es

/-- Result of `docker_call`: issued events, resulting file system, and the
Python outcome. -/
structure CallResult where
  events : List Event
  fs : FileSys
  ret : Except PyErr Unit
  deriving Repr

/-- Mock-mode resolution at the top of `docker_call`: an explicit `mock`
argument wins; otherwise `mock_mode()` consults the environment. -/
def resolvedMock (a : DockerCallArgs) (w : World) : Except PyErr Bool :=
  match a.mock with
  | some b => Except.ok b
  | none => mock_mode w.mockEnvVar

/-- Modelled from the spec: `download_url` of the companion
`toil_lib.urls` module (its source is not under `src/`) fetches the given
URL into the working directory under the given name; we model it as
writing a file whose content records the URL. -/
def download_url (url : String) (work_dir : String) (name : String)
    (fs : FileSys) : FileSys :=
  (osPathJoin work_dir name, "downloaded:" ++ url) :: fs

/-- The mock-mode loop of `docker_call` over `outputs.items()`: an output
with no URL is created with the placeholder payload "contents" when
absent; an output with a URL is downloaded when absent and then asserted
to exist. -/
def mockOutputsStep (work_dir : String) (fs : FileSys) (evs : List Event) :
    List (String × Option String) → CallResult
  | [] => ⟨evs, fs, Except.ok ()⟩
  | (filename, url) :: rest =>
    let file_path := osPathJoin work_dir filename
    match url with
    | none =>
      if fsExists fs file_path then
        mockOutputsStep work_dir fs evs rest
      else
        mockOutputsStep work_dir ((file_path, "contents") :: fs) evs rest
    | some u =>
      if fsExists fs file_path then
        mockOutputsStep work_dir fs evs rest
      else
        let fs1 := download_url u work_dir filename fs
        if fsExists fs1 file_path then
          mockOutputsStep work_dir fs1 (evs ++ [Event.download u filename]) rest
        else
          ⟨evs ++ [Event.download u filename], fs1, Except.error PyErr.assertionError⟩

/-- The `base_docker_call` list built in real mode: the container-run
command, the disabled logging driver, the bind mount of the absolute
working directory onto /data, the optional auto-remove flag, one
`-e NAME=VALUE` pair per environment variable, and any extra raw docker
parameters (appended only when the list is truthy). -/
def baseDockerCall (a : DockerCallArgs) (w : World) : List String :=
  let base0 := ["docker", "run", "--log-driver=none", "-v",
                osPathAbspath w.cwd a.work_dir ++ ":/data"]
  let base1 := if a.rm then base0 ++ ["--rm"] else base0
  let base2 := a.env.foldl (fun acc p => acc ++ ["-e", p.1 ++ "=" ++ p.2]) base1
  if truthyList a.docker_parameters then base2 ++ a.docker_parameters.getD []
  else base2

/-- The space-joined shell command string `docker_call` executes: pipe
mode overrides the entry point to a shell and joins the per-stage
commands with pipes inside single quotes; single-tool mode appends the
image and the argument tokens. -/
def dockerCmdString (a : DockerCallArgs) (base : List String) : String :=
  let parameters := a.parameters.getD []
  if truthyStr a.tools then
    String.intercalate " " (base ++ ["--entrypoint /bin/bash", a.tools.getD "",
      "-c \x27" ++ String.intercalate " | " parameters ++ "\x27"])
  else
    String.intercalate " " (base ++ [a.tool.getD ""] ++ parameters)

/-- `programs._fix_permissions`: re-invoke the container with the entry
point overridden to chown, recursively setting /data to the uid:gid that
own the working directory on the host; the spawn may itself fail. -/
def _fix_permissions (base_docker_call : List String)
    (tool tools : Option String) (work_dir : String) (w : World) :
    List Event × Except PyErr Unit :=
  let base := base_docker_call ++ ["--entrypoint=chown"]
  let own := toString w.workDirUid ++ ":" ++ toString w.workDirGid
  let command :=
    if truthyStr tools then base ++ [tools.getD ""] ++ ["-R", own, "/data"]
    else base ++ [tool.getD ""] ++ ["-R", own, "/data"]
  ([Event.fixPermissions command],
   if w.fixOk then Except.ok () else Except.error (PyErr.calledProcessError command))

/-- The try/except/else tail of real-mode `docker_call`. `earlyReturn`
records that the call took the capture-output branch with no output-file
destination: on success that branch returns from inside the try block, so
the else clause (ownership repair) and the output assertions are skipped.
On an execution failure, the except clause runs the repair inside
`panic()` from `bd2k.util.exceptions`, which re-raises the original
failure even when the repair itself raises. On a non-early success, the
else clause runs the repair (its failure propagates), then every declared
output is asserted to exist. -/
def dockerRealFinish (a : DockerCallArgs) (w : World) (base : List String)
    (cmdStr : String) (earlyReturn : Bool)
    (outputs : List (String × Option String)) : CallResult :=
  if w.runOk then
    if earlyReturn then ⟨[Event.runContainer cmdStr], w.fs, Except.ok ()⟩
    else
      let fix := _fix_permissions base a.tool a.tools a.work_dir w
      match fix.2 with
      | Except.error e => ⟨Event.runContainer cmdStr :: fix.1, w.fs, Except.error e⟩
      | Except.ok _ =>
        if outputs.all (fun fo =>
            fsExists w.fs (if osPathIsAbs fo.1 then fo.1 else osPathJoin a.work_dir fo.1))
        then ⟨Event.runContainer cmdStr :: fix.1, w.fs, Except.ok ()⟩
        else ⟨Event.runContainer cmdStr :: fix.1, w.fs, Except.error PyErr.assertionError⟩
  else
    let fix := _fix_permissions base a.tool a.tools a.work_dir w
    ⟨Event.runContainer cmdStr :: fix.1, w.fs,
     Except.error (PyErr.calledProcessError [cmdStr])⟩

/-- Real-mode branch of `docker_call`: build the base invocation, check
the tool/tools mutual-exclusivity contract, assemble the shell command
and execute it. The early-return flag is set exactly when no output-file
destination was given and output capture was requested. -/
def realBranch (a : DockerCallArgs) (w : World)
    (outputs : List (String × Option String)) : CallResult :=
  let base := baseDockerCall a w
  match require ((truthyStr a.tools) != (truthyStr a.tool))
      "Either \"tool\" or \"tools\" must contain a value, but not both" with
  | Except.error e => ⟨[], w.fs, Except.error e⟩
  | Except.ok _ =>
    dockerRealFinish a w base (dockerCmdString a base)
      (!a.outfile && a.check_output) outputs

/-- `programs.docker_call`: resolve mock mode, default the optional
arguments, assert every declared input exists under the working
directory, then either run the mock branch (which returns without
spawning any container) or the real branch. -/
def docker_call (a : DockerCallArgs) (w : World) : CallResult :=
  match resolvedMock a w with
  | Except.error e => ⟨[], w.fs, Except.error e⟩
  | Except.ok mock =>
    let inputs := a.inputs.getD []
    let outputs := a.outputs.getD []
    if !(inputs.all (fun f => fsExists w.fs (osPathJoin a.work_dir f))) then
      ⟨[], w.fs, Except.error PyErr.assertionError⟩
    else if mock then
      mockOutputsStep a.work_dir w.fs [] outputs
    else
      realBranch a w outputs

/-- Named port constants of `spark_tools`. -/
def SPARK_MASTER_PORT : String := "7077"

/-- Named port constants of `spark_tools`. -/
def HDFS_MASTER_PORT : String := "8020"

/-- `spark_tools.MasterAddress`: a string subclass distinguishing the
notional master address (the string value itself) from the actual one
(the `actual` attribute, initialised to the string value; callers doing
discovery set it separately). -/
structure MasterAddress where
  notional : String
  actual : String
  deriving Repr, DecidableEq

/-- The `MasterAddress` constructor of the source: `actual` defaults to
the notional value. -/
def MasterAddress.mk0 (master_ip : String) : MasterAddress :=
  ⟨master_ip, master_ip⟩

/-- `MasterAddress.docker_parameters`: when the notional and actual
addresses differ, append a host mapping binding the name spark-master to
the actual address, creating a fresh singleton list when no list was
given; otherwise return the argument unchanged (in particular `none`
stays `none`). -/
def MasterAddress.docker_parameters (m : MasterAddress)
    (dockerParams : Option (List String)) : Option (List String) :=
  if m.notional != m.actual then
    let add_host_option := "--add-host=spark-master:" ++ m.actual
    match dockerParams with
    | none => some [add_host_option]
    | some l => some (l ++ [add_host_option])
  else dockerParams

/-- `spark_tools._make_parameters`: require exactly one of the memory
budget and the override parameters; base parameters come from the memory
budget (master, driver memory, executor memory, HDFS default filesystem)
or verbatim from the overrides; then the tool-specific defaults, the
literal separator token, and the job arguments. -/
def _make_parameters (master_ip : String) (default_parameters : List String)
    (memory : Option Int) (arguments : List String)
    (override_parameters : Option (List String)) :
    Except PyErr (List String) :=
  match require ((override_parameters.isSome || memory.isSome) &&
                 (override_parameters.isNone || memory.isNone))
      "Either the memory setting must be defined or you must provide Spark configuration parameters." with
  | Except.error e => Except.error e
  | Except.ok _ =>
    let parameters :=
      match memory with
      | some m =>
        ["--master", "spark://" ++ master_ip ++ ":" ++ SPARK_MASTER_PORT,
         "--conf", "spark.driver.memory=" ++ toString m ++ "g",
         "--conf", "spark.executor.memory=" ++ toString m ++ "g",
         "--conf", "spark.hadoop.fs.default.name=hdfs://" ++ master_ip ++ ":" ++ HDFS_MASTER_PORT]
      | none => override_parameters.getD []
    Except.ok (parameters ++ default_parameters ++ ["--"] ++ arguments)

/-- The full set of keyword parameters accepted by the signature of
`programs.docker_call`. -/
def docker_call_accepted_kwargs : List String :=
  ["tool", "tools", "parameters", "work_dir", "rm", "env", "outfile",
   "errfile", "inputs", "outputs", "docker_parameters", "check_output",
   "return_stderr", "mock"]

/-- The keyword arguments `spark_tools.call_conductor` passes in its
`docker_call(job=job, rm=False, tool=..., docker_parameters=...,
parameters=..., mock=False)` call. -/
def call_conductor_passed_kwargs : List String :=
  ["job", "rm", "tool", "docker_parameters", "parameters", "mock"]

/-- Python keyword binding: a call raises `TypeError` before the callee
body runs unless every passed keyword is a parameter of the callee. -/
def kwargsBindOk (accepted passed : List String) : Bool :=
  passed.all (fun k => accepted.contains k)

/-- The container-invocation request `call_conductor` builds for
`docker_call` (the intended invocation, read off the keyword arguments at
the call site): job arguments `["-C", src, dst]`, parameters assembled by
`_make_parameters` with no conductor-specific defaults, the fixed
conductor image, removal disabled, docker parameters from the
host-network flag plus the master-address augmentation, and mock mode
forced off. Parameter assembly may raise the exclusivity contract error. -/
def call_conductor (master_ip : MasterAddress) (src dst : String)
    (memory : Option Int) (override_parameters : Option (List String)) :
    Except PyErr DockerCallArgs :=
  let arguments := ["-C", src, dst]
  match _make_parameters master_ip.notional [] memory arguments override_parameters with
  | Except.error e => Except.error e
  | Except.ok ps =>
    Except.ok { tool := some "quay.io/ucsc_cgl/conductor",
                rm := false,
                docker_parameters := master_ip.docker_parameters (some ["--net=host"]),
                parameters := some ps,
                mock := some false }

/-- The `default_params` list built inside `call_adam`: the master and
HDFS connection parameters (or local mode), followed by the fixed tuning
defaults. -/
def adamDefaultParams (run_local : Bool) (master_ip : MasterAddress) : List String :=
  let master :=
    if run_local then ["--master", "local[*]"]
    else ["--master", "spark://" ++ master_ip.notional ++ ":" ++ SPARK_MASTER_PORT,
          "--conf", "spark.hadoop.fs.default.name=hdfs://" ++ master_ip.notional ++ ":" ++ HDFS_MASTER_PORT]
  master ++
    ["--conf", "spark.driver.maxResultSize=0",
     "--conf", "spark.storage.memoryFraction=0.3",
     "--conf", "spark.storage.unrollFraction=0.1",
     "--conf", "spark.network.timeout=300s"]

/-- The two shapes of an ADAM invocation: through the container
invocation utility, or a native `check_call` argument vector. -/
inductive AdamInvocation where
  | viaDocker (request : DockerCallArgs)
  | native (command : List String)
  deriving Repr, DecidableEq

/-- `spark_tools.call_adam`: with no native path, build the docker
request (parameters assembled by `_make_parameters` over the ADAM
defaults, fixed pinned image, removal disabled, host network plus
augmentation, mock forced off); with a native path, run
`<path>/bin/adam-submit` with the default parameters followed directly by
the job arguments (no parameter assembly). -/
def call_adam (master_ip : MasterAddress) (arguments : List String)
    (memory : Option Int) (override_parameters : Option (List String))
    (run_local : Bool) (native_adam_path : Option String) :
    Except PyErr AdamInvocation :=
  let default_params := adamDefaultParams run_local master_ip
  match native_adam_path with
  | none =>
    match _make_parameters master_ip.notional default_params memory arguments
        override_parameters with
    | Except.error e => Except.error e
    | Except.ok ps =>
      Except.ok (AdamInvocation.viaDocker
        { tool := some "quay.io/ucsc_cgl/adam:962-ehf--6e7085f8cac4b9a927dc9fb06b48007957256b80",
          rm := false,
          docker_parameters := master_ip.docker_parameters (some ["--net=host"]),
          parameters := some ps,
          mock := some false })
  | some p =>
    Except.ok (AdamInvocation.native
      ([osPathJoin p "bin/adam-submit"] ++ default_params ++ arguments))

/-- `subprocess.check_call` on an argument vector: spawn the process and
raise `CalledProcessError` on nonzero exit. -/
def check_call (cmd : List String) (w : World) : List Event × Except PyErr Unit :=
  ([Event.runContainer (String.intercalate " " cmd)],
   if w.runOk then Except.ok () else Except.error (PyErr.calledProcessError cmd))

/-- The claim reading of the native ADAM path: the command would be the
executable followed by the output of the parameter-assembly routine over
the ADAM defaults, then the job arguments. This definition follows the
words of the specification for comparison with `call_adam`; the source
does not call `_make_parameters` on the native path. -/
def call_adam_native_claimed (master_ip : MasterAddress) (arguments : List String)
    (memory : Option Int) (override_parameters : Option (List String))
    (run_local : Bool) (native_adam_path : String) :
    Except PyErr (List String) :=
  match _make_parameters master_ip.notional (adamDefaultParams run_local master_ip)
      memory arguments override_parameters with
  | Except.error e => Except.error e
  | Except.ok ps =>
    Except.ok ([osPathJoin native_adam_path "bin/adam-submit"] ++ ps ++ arguments)

/-! ## General lemmas about the embedding -/

/-- The ownership-repair step spawns exactly one process. -/
theorem countFix_fix_single (b : List String) (t ts : Option String)
    (wd : String) (w : World) :
    countFix (_fix_permissions b t ts wd w).1 = 1 := by
  simp [_fix_permissions, countFix]

/-- A `docker_call` whose mock mode resolves to off and whose declared
inputs all exist reduces to the real-mode branch. -/
theorem docker_call_real (a : DockerCallArgs) (w : World)
    (h1 : resolvedMock a w = Except.ok false)
    (h2 : (a.inputs.getD []).all (fun f => fsExists w.fs (osPathJoin a.work_dir f)) = true) :
    docker_call a w = realBranch a w (a.outputs.getD []) := by
  unfold docker_call
  rw [h1]
  simp [h2]

/-- When the tool/tools exclusivity contract holds, the real-mode branch
reduces to the execution tail, with the early-return flag set exactly for
the capture-output-without-destination configuration. -/
theorem realBranch_require_ok (a : DockerCallArgs) (w : World)
    (outs : List (String × Option String))
    (hx : ((truthyStr a.tools) != (truthyStr a.tool)) = true) :
    realBranch a w outs =
      dockerRealFinish a w (baseDockerCall a w) (dockerCmdString a (baseDockerCall a w))
        (!a.outfile && a.check_output) outs := by
  unfold realBranch require
  rw [hx]
  simp

/-- The execution tail spawns the ownership-repair step exactly once,
except that a successful run with the early-return flag set spawns it not
at all. -/
theorem countFix_dockerRealFinish (a : DockerCallArgs) (w : World) (base : List String)
    (cmd : String) (early : Bool) (outs : List (String × Option String)) :
    countFix (dockerRealFinish a w base cmd early outs).events =
      (if w.runOk && early then 0 else 1) := by
  cases hr : w.runOk <;> cases he : early <;> cases hf : w.fixOk <;>
    simp [dockerRealFinish, _fix_permissions, hr, he, hf, countFix] <;>
    split <;> simp [countFix]

/-- When the container process fails, the execution tail reports the
original process failure, tagged with the container command, regardless
of whether the repair step succeeds. -/
theorem dockerRealFinish_ret_fail (a : DockerCallArgs) (w : World) (base : List String)
    (cmd : String) (early : Bool) (outs : List (String × Option String))
    (h : w.runOk = false) :
    (dockerRealFinish a w base cmd early outs).ret =
      Except.error (PyErr.calledProcessError [cmd]) := by
  simp [dockerRealFinish, h]

/-! ## Claim C1 -/

/-- Claim C1 counterexample: a successful real-mode invocation that
requests output capture with no output-file destination returns from
inside the try block and issues the ownership-repair step zero times, not
exactly once as the claim states. -/
theorem repair_skipped_on_capture_success :
    countFix (docker_call { tool := some "ubuntu", check_output := true, mock := some false }
      ⟨none, "/cwd", [], true, true, 0, 0⟩).events = 0 := rfl

/-- Claim C1 (amended): for every real-mode invocation passing the
tool-exclusivity contract, the ownership-repair step is issued exactly
once after execution, except that a successful invocation with output
capture requested and no output-file destination returns the captured
output from inside the protected block and issues no repair; when the
container process fails, the repair runs and the caller observes the
originally raised process failure (tagged with the container command),
never a repair-step error. -/
theorem repair_exactly_once_amended (a : DockerCallArgs) (w : World)
    (h1 : resolvedMock a w = Except.ok false)
    (h2 : (a.inputs.getD []).all (fun f => fsExists w.fs (osPathJoin a.work_dir f)) = true)
    (h3 : ((truthyStr a.tools) != (truthyStr a.tool)) = true) :
    (¬ (w.runOk = true ∧ a.outfile = false ∧ a.check_output = true) →
        countFix (docker_call a w).events = 1) ∧
    (w.runOk = true ∧ a.outfile = false ∧ a.check_output = true →
        countFix (docker_call a w).events = 0) ∧
    (w.runOk = false →
        (docker_call a w).ret =
          Except.error (PyErr.calledProcessError
            [dockerCmdString a (baseDockerCall a w)])) := by
  rw [docker_call_real a w h1 h2, realBranch_require_ok a w _ h3]
  refine ⟨?_, ?_, ?_⟩
  · intro h
    rw [countFix_dockerRealFinish]
    have hc : (w.runOk && (!a.outfile && a.check_output)) = false := by
      cases hr : w.runOk <;> cases ho : a.outfile <;> cases hk : a.check_output <;>
        simp_all
    rw [hc]
    simp
  · rintro ⟨hr, ho, hk⟩
    rw [countFix_dockerRealFinish, hr, ho, hk]
    simp
  · intro hr
    exact dockerRealFinish_ret_fail a w _ _ _ _ hr

/-- Claim C1 witness: a plain successful real-mode single-tool invocation
issues the ownership-repair step exactly once. -/
theorem repair_exactly_once_amended_witness :
    countFix (docker_call { tool := some "ubuntu", mock := some false }
      ⟨none, "/cwd", [], true, true, 0, 0⟩).events = 1 :=
  (repair_exactly_once_amended { tool := some "ubuntu", mock := some false }
      ⟨none, "/cwd", [], true, true, 0, 0⟩ rfl rfl rfl).1 (by decide)

/-! ## Claim C2 -/

/-- Claim C2 counterexample: with mock mode on and both the single tool
and the tool list supplied, the invocation returns successfully with no
contract violation, because the exclusivity check sits after the
mock-mode early return. -/
theorem mock_skips_tool_exclusivity_check :
    (docker_call { tool := some "samtools", tools := some "ubuntu", mock := some true }
      ⟨none, "/cwd", [], true, true, 0, 0⟩).ret = Except.ok () ∧
    (docker_call { tool := some "samtools", tools := some "ubuntu", mock := some true }
      ⟨none, "/cwd", [], true, true, 0, 0⟩).events = [] := ⟨rfl, rfl⟩

/-- Claim C2 (amended): in a real-mode (non-mock) invocation whose
declared inputs exist, supplying both of tool and tools, or neither (in
the truthiness sense), fails with the contract-violation message before
any external process is spawned; in mock mode the check is skipped
entirely. -/
theorem tool_exclusivity_real_mode (a : DockerCallArgs) (w : World)
    (h1 : resolvedMock a w = Except.ok false)
    (h2 : (a.inputs.getD []).all (fun f => fsExists w.fs (osPathJoin a.work_dir f)) = true)
    (h3 : truthyStr a.tool = truthyStr a.tools) :
    (docker_call a w).ret = Except.error (PyErr.userError
        "Either \"tool\" or \"tools\" must contain a value, but not both") ∧
    (docker_call a w).events = [] := by
  rw [docker_call_real a w h1 h2]
  unfold realBranch require
  rw [h3]
  simp

/-- Claim C2 witness: a real-mode invocation supplying neither tool nor
tools fails with the contract violation and spawns nothing. -/
theorem tool_exclusivity_real_mode_witness :
    (docker_call { mock := some false } ⟨none, "/cwd", [], true, true, 0, 0⟩).ret =
      Except.error (PyErr.userError
        "Either \"tool\" or \"tools\" must contain a value, but not both") ∧
    (docker_call { mock := some false } ⟨none, "/cwd", [], true, true, 0, 0⟩).events = [] :=
  tool_exclusivity_real_mode { mock := some false }
    ⟨none, "/cwd", [], true, true, 0, 0⟩ rfl rfl rfl

/-! ## Claim C3 -/

/-- Claim C3 counterexample: with a native installation path, the actual
command runs the executable with the ADAM default parameters followed
directly by the job arguments, while the claimed parameter-assembly
routine would produce a different list (with the memory configuration and
the separator token, which the actual command lacks). -/
theorem native_adam_bypasses_assembly :
    call_adam (MasterAddress.mk0 "1.2.3.4") ["transform", "in.bam"] (some 4) none false
        (some "/opt/adam") =
      Except.ok (AdamInvocation.native
        ["/opt/adam/bin/adam-submit", "--master", "spark://1.2.3.4:7077",
         "--conf", "spark.hadoop.fs.default.name=hdfs://1.2.3.4:8020",
         "--conf", "spark.driver.maxResultSize=0",
         "--conf", "spark.storage.memoryFraction=0.3",
         "--conf", "spark.storage.unrollFraction=0.1",
         "--conf", "spark.network.timeout=300s", "transform", "in.bam"]) ∧
    call_adam_native_claimed (MasterAddress.mk0 "1.2.3.4") ["transform", "in.bam"] (some 4)
        none false "/opt/adam" =
      Except.ok ["/opt/adam/bin/adam-submit", "--master", "spark://1.2.3.4:7077",
         "--conf", "spark.driver.memory=4g",
         "--conf", "spark.executor.memory=4g",
         "--conf", "spark.hadoop.fs.default.name=hdfs://1.2.3.4:8020",
         "--master", "spark://1.2.3.4:7077",
         "--conf", "spark.hadoop.fs.default.name=hdfs://1.2.3.4:8020",
         "--conf", "spark.driver.maxResultSize=0",
         "--conf", "spark.storage.memoryFraction=0.3",
         "--conf", "spark.storage.unrollFraction=0.1",
         "--conf", "spark.network.timeout=300s", "--", "transform", "in.bam",
         "transform", "in.bam"] ∧
    ("--" ∉ ["/opt/adam/bin/adam-submit", "--master", "spark://1.2.3.4:7077",
         "--conf", "spark.hadoop.fs.default.name=hdfs://1.2.3.4:8020",
         "--conf", "spark.driver.maxResultSize=0",
         "--conf", "spark.storage.memoryFraction=0.3",
         "--conf", "spark.storage.unrollFraction=0.1",
         "--conf", "spark.network.timeout=300s", "transform", "in.bam"]) :=
  ⟨by rfl, by rfl, by decide⟩

/-- Claim C3 (amended): with a native installation path, `call_adam` runs
the executable at `<native_path>/bin/adam-submit` directly with the
tool-specific default Spark parameters followed immediately by the job
arguments; the parameter-assembly routine is not invoked, so the
memory/override-parameters choice is ignored (never validated) and no
separator token is inserted; a nonzero exit of that process is a
failure. -/
theorem native_adam_command (master : MasterAddress) (arguments : List String)
    (memory : Option Int) (ov : Option (List String)) (run_local : Bool) (p : String) :
    call_adam master arguments memory ov run_local (some p) =
      Except.ok (AdamInvocation.native
        ([osPathJoin p "bin/adam-submit"] ++ adamDefaultParams run_local master ++ arguments)) ∧
    (∀ w : World, w.runOk = false →
      (check_call ([osPathJoin p "bin/adam-submit"] ++ adamDefaultParams run_local master ++ arguments) w).2 =
        Except.error (PyErr.calledProcessError
          ([osPathJoin p "bin/adam-submit"] ++ adamDefaultParams run_local master ++ arguments))) := by
  refine ⟨rfl, ?_⟩
  intro w h
  simp [check_call, h]

/-- Claim C3 witness: a failing native run (neither memory nor overrides
supplied, which the native path never validates) raises the process
failure for the exact native command. -/
theorem native_adam_command_witness :
    (check_call ([osPathJoin "/usr/local/adam" "bin/adam-submit"] ++
        adamDefaultParams true (MasterAddress.mk0 "10.0.0.2") ++ ["count"])
      ⟨none, "/cwd", [], false, true, 0, 0⟩).2 =
      Except.error (PyErr.calledProcessError
        ([osPathJoin "/usr/local/adam" "bin/adam-submit"] ++
          adamDefaultParams true (MasterAddress.mk0 "10.0.0.2") ++ ["count"])) :=
  (native_adam_command (MasterAddress.mk0 "10.0.0.2") ["count"] none none true
    "/usr/local/adam").2 ⟨none, "/cwd", [], false, true, 0, 0⟩ rfl

/-! ## Claim C4 -/

/-- Claim C4 counterexample: when the notional and actual addresses are
equal and no flag list was given, the augmentation returns no list at all
(the Python function returns None), not a fresh empty list as the claim
states. -/
theorem docker_parameters_none_when_equal :
    (MasterAddress.mk0 "spark-host").docker_parameters none = none ∧
    (none : Option (List String)) ≠ some [] := ⟨rfl, by decide⟩

/-- Claim C4 (amended): the augmentation appends the host-mapping flag
for the actual address exactly when the actual facet differs from the
notional value, creating a fresh singleton list when no list was given;
when they are equal it returns its argument unchanged, so the absence of
a list stays an absence; the discovery example of the specification
augments an empty list to the singleton host mapping. -/
theorem docker_parameters_augmentation (m : MasterAddress) (dp : Option (List String)) :
    (m.notional ≠ m.actual →
        m.docker_parameters dp =
          some (dp.getD [] ++ ["--add-host=spark-master:" ++ m.actual])) ∧
    (m.notional = m.actual → m.docker_parameters dp = dp) ∧
    (MasterAddress.mk "auto" "10.0.0.5").docker_parameters (some []) =
      some ["--add-host=spark-master:10.0.0.5"] := by
  refine ⟨?_, ?_, rfl⟩
  · intro h
    have hb : (m.notional != m.actual) = true := bne_iff_ne.mpr h
    unfold MasterAddress.docker_parameters
    rw [hb]
    cases dp <;> simp
  · intro h
    unfold MasterAddress.docker_parameters
    rw [h]
    simp

/-- Claim C4 witness: with differing notional and actual addresses and no
list given, the augmentation creates the fresh singleton host mapping. -/
theorem docker_parameters_augmentation_witness :
    (MasterAddress.mk "auto" "10.0.0.5").docker_parameters none =
      some ["--add-host=spark-master:10.0.0.5"] :=
  (docker_parameters_augmentation (MasterAddress.mk "auto" "10.0.0.5") none).1 (by decide)

/-! ## Claim C5 -/

/-- Claim C5 (confirmed): on the memory path (override parameters
absent), the parameter-assembly routine returns exactly the master flag,
the two memory configurations, the HDFS default-filesystem configuration,
the default parameters, the separator token, and the job arguments; in
particular the concrete ten-token example of the specification. -/
theorem make_parameters_memory_path (master : String) (mem : Int)
    (defaults args : List String) :
    _make_parameters master defaults (some mem) args none =
      Except.ok (["--master", "spark://" ++ master ++ ":7077",
                  "--conf", "spark.driver.memory=" ++ toString mem ++ "g",
                  "--conf", "spark.executor.memory=" ++ toString mem ++ "g",
                  "--conf", "spark.hadoop.fs.default.name=hdfs://" ++ master ++ ":8020"]
                 ++ defaults ++ ["--"] ++ args) ∧
    _make_parameters "10.0.0.1" [] (some 4) ["--input", "x"] none =
      Except.ok ["--master", "spark://10.0.0.1:7077",
                 "--conf", "spark.driver.memory=4g",
                 "--conf", "spark.executor.memory=4g",
                 "--conf", "spark.hadoop.fs.default.name=hdfs://10.0.0.1:8020",
                 "--", "--input", "x"] := by
  constructor
  · simp [_make_parameters, require, SPARK_MASTER_PORT, HDFS_MASTER_PORT, String.append_assoc]
  · rfl

/-! ## Claim C6 -/

/-- Claim C6 (confirmed): the parameter-assembly routine fails with the
exact contract-violation message when both or neither of the memory
budget and the override parameters are supplied, and succeeds when
exactly one is supplied. -/
theorem make_parameters_exclusivity (master : String) (defaults : List String)
    (memory : Option Int) (args : List String) (ov : Option (List String)) :
    ((memory.isSome = true ∧ ov.isSome = true) ∨ (memory = none ∧ ov = none) →
        _make_parameters master defaults memory args ov =
          Except.error (PyErr.userError
            "Either the memory setting must be defined or you must provide Spark configuration parameters.")) ∧
    ((memory.isSome = true ∧ ov = none) ∨ (memory = none ∧ ov.isSome = true) →
        ∃ ps, _make_parameters master defaults memory args ov = Except.ok ps) := by
  cases memory <;> cases ov <;> simp [_make_parameters, require]

/-- Claim C6 witness: supplying both a memory budget and override
parameters fails with the exact contract-violation message. -/
theorem make_parameters_exclusivity_witness :
    _make_parameters "10.0.0.1" [] (some 2) ["a"] (some ["--conf", "x"]) =
      Except.error (PyErr.userError
        "Either the memory setting must be defined or you must provide Spark configuration parameters.") :=
  (make_parameters_exclusivity "10.0.0.1" [] (some 2) ["a"] (some ["--conf", "x"])).1
    (Or.inl ⟨rfl, rfl⟩)

/-! ## Claim C7 -/

/-- Claim C7 (code bug): `call_conductor` passes the keyword `job` to
`docker_call`, whose signature has no such parameter, so under Python
keyword binding every call raises TypeError before the container
invocation utility runs; the invocation request read off the remaining
keyword arguments is exactly as the claim states it (fixed conductor
image, removal disabled, mock forced off, host-network docker parameters
plus the master-address augmentation, and parameters assembled over the
job arguments `-C src dst`). -/
theorem call_conductor_job_kwarg_bug :
    kwargsBindOk docker_call_accepted_kwargs call_conductor_passed_kwargs = false ∧
    (docker_call_accepted_kwargs.contains "job") = false ∧
    call_conductor (MasterAddress.mk0 "10.0.0.5") "s3://bkt/f" "hdfs://10.0.0.5/f" (some 4) none =
      Except.ok { tool := some "quay.io/ucsc_cgl/conductor",
                  rm := false,
                  docker_parameters := some ["--net=host"],
                  parameters := some ["--master", "spark://10.0.0.5:7077",
                                      "--conf", "spark.driver.memory=4g",
                                      "--conf", "spark.executor.memory=4g",
                                      "--conf", "spark.hadoop.fs.default.name=hdfs://10.0.0.5:8020",
                                      "--", "-C", "s3://bkt/f", "hdfs://10.0.0.5/f"],
                  mock := some false } := ⟨rfl, rfl, rfl⟩

/-! ## Claim C8 -/

/-- Claim C8 (confirmed): a mock-mode invocation declaring one output
filename with no source URL creates the file under the working directory
with the exact placeholder payload when it does not already exist, and
executes no real external process. -/
theorem mock_creates_placeholder_output (a : DockerCallArgs) (w : World) (f : String)
    (h1 : resolvedMock a w = Except.ok true)
    (h2 : (a.inputs.getD []).all (fun g => fsExists w.fs (osPathJoin a.work_dir g)) = true)
    (h3 : a.outputs = some [(f, none)])
    (h4 : fsExists w.fs (osPathJoin a.work_dir f) = false) :
    (docker_call a w).events = [] ∧
    (docker_call a w).fs = (osPathJoin a.work_dir f, "contents") :: w.fs ∧
    (docker_call a w).ret = Except.ok () := by
  unfold docker_call
  rw [h1]
  simp [h2, h3, mockOutputsStep, h4]

/-- Claim C8 witness: the specification example creates work_dir/out.txt
with payload "contents" and spawns nothing. -/
theorem mock_creates_placeholder_output_witness :
    (docker_call { outputs := some [("out.txt", none)], mock := some true }
      ⟨none, "/cwd", [], true, true, 0, 0⟩).events = [] ∧
    (docker_call { outputs := some [("out.txt", none)], mock := some true }
      ⟨none, "/cwd", [], true, true, 0, 0⟩).fs = [("./out.txt", "contents")] ∧
    (docker_call { outputs := some [("out.txt", none)], mock := some true }
      ⟨none, "/cwd", [], true, true, 0, 0⟩).ret = Except.ok () :=
  mock_creates_placeholder_output { outputs := some [("out.txt", none)], mock := some true }
    ⟨none, "/cwd", [], true, true, 0, 0⟩ "out.txt" rfl rfl rfl rfl

/-! ## Claim C9 -/

/-- Claim C9 (confirmed): a mock-mode invocation declaring one output
filename with no source URL leaves the file system unchanged when the
file already exists under the working directory, whatever its content. -/
theorem mock_preserves_existing_output (a : DockerCallArgs) (w : World) (f : String)
    (h1 : resolvedMock a w = Except.ok true)
    (h2 : (a.inputs.getD []).all (fun g => fsExists w.fs (osPathJoin a.work_dir g)) = true)
    (h3 : a.outputs = some [(f, none)])
    (h4 : fsExists w.fs (osPathJoin a.work_dir f) = true) :
    (docker_call a w).events = [] ∧
    (docker_call a w).fs = w.fs ∧
    (docker_call a w).ret = Except.ok () := by
  unfold docker_call
  rw [h1]
  simp [h2, h3, mockOutputsStep, h4]

/-- Claim C9 witness: a pre-existing work_dir/out.txt with arbitrary
content keeps its content across a mock invocation declaring it. -/
theorem mock_preserves_existing_output_witness :
    (docker_call { outputs := some [("out.txt", none)], mock := some true }
      ⟨none, "/cwd", [("./out.txt", "precious")], true, true, 0, 0⟩).events = [] ∧
    (docker_call { outputs := some [("out.txt", none)], mock := some true }
      ⟨none, "/cwd", [("./out.txt", "precious")], true, true, 0, 0⟩).fs =
        [("./out.txt", "precious")] ∧
    (docker_call { outputs := some [("out.txt", none)], mock := some true }
      ⟨none, "/cwd", [("./out.txt", "precious")], true, true, 0, 0⟩).ret = Except.ok () :=
  mock_preserves_existing_output { outputs := some [("out.txt", none)], mock := some true }
    ⟨none, "/cwd", [("./out.txt", "precious")], true, true, 0, 0⟩ "out.txt" rfl rfl rfl rfl

/-! ## Claim C10 -/

/-- Claim C10 (confirmed): the mock-mode helper is partial over
environment values — a value of TOIL_SCRIPTS_MOCK_MODE not parsing as an
integer (such as "true") raises a parse error, any value parsing as a
nonzero integer (including negative ones such as "-1") turns mock mode
on, absence or "0" turns it off, and a `docker_call` with the mock
override unset propagates the parse error before doing anything. -/
theorem mock_mode_int_parsing :
    (∀ s, pyInt s = none → mock_mode (some s) = Except.error PyErr.valueError) ∧
    (∀ s n, pyInt s = some n → n ≠ 0 → mock_mode (some s) = Except.ok true) ∧
    (∀ s, pyInt s = some 0 → mock_mode (some s) = Except.ok false) ∧
    mock_mode none = Except.ok false ∧
    mock_mode (some "true") = Except.error PyErr.valueError ∧
    mock_mode (some "-1") = Except.ok true ∧
    mock_mode (some "0") = Except.ok false ∧
    (∀ (a : DockerCallArgs) (w : World), a.mock = none →
        mock_mode w.mockEnvVar = Except.error PyErr.valueError →
        (docker_call a w).ret = Except.error PyErr.valueError ∧
        (docker_call a w).events = []) := by
  refine ⟨?_, ?_, ?_, rfl, rfl, rfl, rfl, ?_⟩
  · intro s h
    simp [mock_mode, h]
  · intro s n h hn
    simp [mock_mode, h, bne_iff_ne.mpr hn]
  · intro s h
    simp [mock_mode, h]
  · intro a w ha hm
    unfold docker_call resolvedMock
    rw [ha, hm]
    simp

/-- Claim C10 witness: a padded positive value turns mock mode on, a
non-integer value raises the parse error, and a `docker_call` with the
override unset under a non-integer environment value fails with the parse
error. -/
theorem mock_mode_int_parsing_witness :
    mock_mode (some " 7 ") = Except.ok true ∧
    mock_mode (some "x1") = Except.error PyErr.valueError ∧
    (docker_call { tool := some "ubuntu" }
      ⟨some "yes", "/cwd", [], true, true, 0, 0⟩).ret = Except.error PyErr.valueError :=
  ⟨mock_mode_int_parsing.2.1 " 7 " 7 rfl (by decide),
   mock_mode_int_parsing.1 "x1" rfl,
   (mock_mode_int_parsing.2.2.2.2.2.2.2 { tool := some "ubuntu" }
     ⟨some "yes", "/cwd", [], true, true, 0, 0⟩ rfl rfl).1⟩

end ToilLib
